import Mathlib

/-!
Shallow embedding of the usage-accounting ledger of
`src/src/database/usage_tracker.py` (class `UsageTracker`) and of the
limit-exceeded message builder of `src/src/services/ai_analysis_service.py`.

Modelling conventions:
* Timestamps are integers (seconds).  The Python code stores
  `datetime.now().isoformat()` strings and compares them with SQL `>=`;
  for the fixed-format ISO strings produced by `isoformat()` the
  lexicographic order used by SQLite coincides with chronological order,
  so an integer timestamp with `≤` is a faithful model.  `timedelta(days=d)`
  is `d * 86400` seconds and `timedelta(hours=1)` is `3600` seconds.
  Each top-level call receives a single `now`; the (microsecond-level)
  drift between several `datetime.now()` calls inside one Python call is
  not modelled.
* Monetary amounts (`estimated_cost`, the limits) are rationals.
* Python dict results are association lists `List (String × Value)` so
  that the presence and absence of keys (and the `KeyError` a consumer
  hits on a missing key) are expressible.
* Each `sqlite3` query is an atomic store access that either succeeds or
  raises; a `StoreStatus` record of flags says which kind of access
  raises.  A `false` flag sends the corresponding Python `try` block to
  its `except` branch, exactly as written in the source.
-/

namespace UsageLedger

/-- A row of the `usage_records` table / the payload of `record_usage`
(`usage_tracker.py` lines 50-60 and 90-111). -/
structure UsageRecord where
  user_id : String
  timestamp : ℤ
  api_service : String
  tokens_used : ℕ
  estimated_cost : ℚ
  request_type : String
  metadata : List (String × String)
deriving DecidableEq

/-- A row of the `user_limits` table (`usage_tracker.py` lines 62-71).
The schema has exactly these columns; in particular there is no
`is_premium` column. -/
structure UserLimitsRow where
  user_id : String
  monthly_limit : ℚ
  daily_limit : ℚ
  requests_per_hour : ℕ
  created_at : ℤ
  updated_at : ℤ
deriving DecidableEq

/-- The persistent store: the two tables of `_init_database`. -/
structure DB where
  usage_records : List UsageRecord
  user_limits : List UserLimitsRow
deriving DecidableEq

/-- The configuration surface read by `create_default_limits`
(`src/src/config/settings.py` lines 54-56). -/
structure Settings where
  DEFAULT_MONTHLY_LIMIT : ℚ
  DEFAULT_DAILY_LIMIT : ℚ
  DEFAULT_HOURLY_REQUESTS : ℕ
deriving DecidableEq

/-- The hard-coded fallback values of `settings.py` (env defaults). -/
def defaultSettings : Settings := ⟨10, 2, 20⟩

/-- Which individual store accesses succeed.  A `false` component makes
the corresponding query raise, driving the enclosing `try` into its
`except` branch. -/
structure StoreStatus where
  usageReadOk : Bool
  hourlyReadOk : Bool
  limitsReadOk : Bool
  limitsWriteOk : Bool
  recordWriteOk : Bool
deriving DecidableEq

/-- Every store access succeeds. -/
def StoreStatus.allOk : StoreStatus := ⟨true, true, true, true, true⟩

/-- A Python value appearing in the dict results of the tracker. -/
inductive Value where
  | b : Bool → Value
  | q : ℚ → Value
  | n : ℕ → Value
deriving DecidableEq

/-- A Python dict with string keys, as an association list. -/
abbrev Dict := List (String × Value)

/-- `d[k]` returning `none` on a missing key. -/
def dget (d : Dict) (k : String) : Option Value :=
  List.lookup k d

/-- `d[k]` expected to be a float. -/
def dgetQ (d : Dict) (k : String) : Option ℚ :=
  match dget d k with
  | some (Value.q x) => some x
  | _ => none

/-- `d[k]` expected to be an int. -/
def dgetN (d : Dict) (k : String) : Option ℕ :=
  match dget d k with
  | some (Value.n x) => some x
  | _ => none

/-- `SELECT ... FROM user_limits WHERE user_id = ?` (primary-key lookup). -/
def findRow (rows : List UserLimitsRow) (uid : String) : Option UserLimitsRow :=
  rows.find? (fun r => r.user_id == uid)

/-- SQLite `INSERT OR REPLACE` on the `user_limits` primary key: any
existing row for the same `user_id` is removed and the new row stored. -/
def insertOrReplace (rows : List UserLimitsRow) (r : UserLimitsRow) : List UserLimitsRow :=
  rows.filter (fun x => !(x.user_id == r.user_id)) ++ [r]

/-- `record_usage` (`usage_tracker.py` lines 90-111): inserts one row
with `timestamp = now` and returns `True`; on a failed insert the
`except` branch returns `False` and nothing was written.
`metadata = metadata or {}` is the `Option.getD`. -/
def record_usage (writeOk : Bool) (db : DB) (now : ℤ) (user_id api_service : String)
    (tokens_used : ℕ) (estimated_cost : ℚ) (request_type : String)
    (metadata : Option (List (String × String))) : Bool × DB :=
  if writeOk then
    (true,
      { db with usage_records := db.usage_records ++
          [⟨user_id, now, api_service, tokens_used, estimated_cost,
            request_type, metadata.getD []⟩] })
  else
    (false, db)

/-- The per-service aggregate row produced by the `GROUP BY` query of
`get_user_usage`: `SUM(tokens_used)`, `SUM(estimated_cost)`, `COUNT(*)`. -/
structure ServiceStats where
  tokens : ℕ
  cost : ℚ
  requests : ℕ
deriving DecidableEq

/-- The `WHERE user_id = ? AND timestamp >= ?` row filter of
`get_user_usage`, with `start = now - days*86400`. -/
def inUsageWindow (now : ℤ) (days : ℕ) (uid : String) (e : UsageRecord) : Bool :=
  e.user_id == uid && decide (now - (days : ℤ) * 86400 ≤ e.timestamp)

/-- `get_user_usage` (`usage_tracker.py` lines 113-144): per-service
sums over the trailing window; the `except` branch (failed read)
returns the empty dict `{}`. -/
def get_user_usage (readOk : Bool) (db : DB) (now : ℤ) (user_id : String)
    (days : ℕ) : List (String × ServiceStats) :=
  if readOk then
    let rows := db.usage_records.filter (inUsageWindow now days user_id)
    let services := (rows.map (fun e => e.api_service)).dedup
    services.map (fun s =>
      let grp := rows.filter (fun e => e.api_service == s)
      (s, ⟨(grp.map (fun e => e.tokens_used)).sum,
           (grp.map (fun e => e.estimated_cost)).sum,
           grp.length⟩))
  else
    []

/-- `get_hourly_request_count` (`usage_tracker.py` lines 235-251):
`COUNT(*)` of the user's rows with `timestamp >= now - 1 hour`; the
`except` branch returns `0`. -/
def get_hourly_request_count (readOk : Bool) (db : DB) (now : ℤ)
    (user_id : String) : ℕ :=
  if readOk then
    (db.usage_records.filter (fun e =>
      e.user_id == user_id && decide (now - 3600 ≤ e.timestamp))).length
  else
    0

/-- The dict literal `{'monthly_limit': m, 'daily_limit': d,
'requests_per_hour': h}` returned by `get_user_limits` and
`create_default_limits`. -/
def limitsDict (m d : ℚ) (h : ℕ) : Dict :=
  [("monthly_limit", Value.q m), ("daily_limit", Value.q d),
   ("requests_per_hour", Value.n h)]

/-- `create_default_limits` (`usage_tracker.py` lines 202-233): upserts
the process-wide defaults (`INSERT OR REPLACE`, `created_at` and
`updated_at` both `now`) and returns them; on a failed write the
`except` branch returns the hard-coded dict without touching the store. -/
def create_default_limits (writeOk : Bool) (s : Settings) (db : DB) (now : ℤ)
    (user_id : String) : Dict × DB :=
  if writeOk then
    let row : UserLimitsRow :=
      ⟨user_id, s.DEFAULT_MONTHLY_LIMIT, s.DEFAULT_DAILY_LIMIT,
       s.DEFAULT_HOURLY_REQUESTS, now, now⟩
    (limitsDict s.DEFAULT_MONTHLY_LIMIT s.DEFAULT_DAILY_LIMIT s.DEFAULT_HOURLY_REQUESTS,
      { db with user_limits := insertOrReplace db.user_limits row })
  else
    (limitsDict 10 2 20, db)

/-- `get_user_limits` (`usage_tracker.py` lines 178-200): returns the
stored row if the read succeeds and a row exists, otherwise (no row, or
the `except` branch on a failed read) falls through to
`create_default_limits`. -/
def get_user_limits (st : StoreStatus) (s : Settings) (db : DB) (now : ℤ)
    (user_id : String) : Dict × DB :=
  if st.limitsReadOk then
    match findRow db.user_limits user_id with
    | some r => (limitsDict r.monthly_limit r.daily_limit r.requests_per_hour, db)
    | none => create_default_limits st.limitsWriteOk s db now user_id
  else
    create_default_limits st.limitsWriteOk s db now user_id

/-- `sum(service['cost'] for service in usage.values())` in
`check_user_limits`. -/
def sumCost (usage : List (String × ServiceStats)) : ℚ :=
  (usage.map (fun p => p.2.cost)).sum

/-- The dict literal `{'within_limits': False}` returned by the
`except` branch of `check_user_limits` (`usage_tracker.py` line 176). -/
def check_error_dict : Dict := [("within_limits", Value.b false)]

/-- `check_user_limits` (`usage_tracker.py` lines 146-176): resolves
limits, aggregates the 30-day and 1-day windows and the hourly count,
and reports `within_limits` as the conjunction of the three `<=`
comparisons together with all six usage/limit figures.  An exception in
the `try` body — modelled as a failed dict key access on the resolved
limits — lands in the `except` branch returning `check_error_dict`. -/
def check_user_limits (st : StoreStatus) (s : Settings) (db : DB) (now : ℤ)
    (user_id : String) : Dict × DB :=
  match get_user_limits st s db now user_id with
  | (limits, db1) =>
    let monthly_usage := get_user_usage st.usageReadOk db1 now user_id 30
    let daily_usage := get_user_usage st.usageReadOk db1 now user_id 1
    let hourly_requests := get_hourly_request_count st.hourlyReadOk db1 now user_id
    let monthly_cost := sumCost monthly_usage
    let daily_cost := sumCost daily_usage
    match dgetQ limits "monthly_limit", dgetQ limits "daily_limit",
          dgetN limits "requests_per_hour" with
    | some ml, some dl, some hl =>
      ([("within_limits", Value.b (decide (monthly_cost ≤ ml) &&
          decide (daily_cost ≤ dl) && decide (hourly_requests ≤ hl))),
        ("monthly_usage", Value.q monthly_cost),
        ("monthly_limit", Value.q ml),
        ("daily_usage", Value.q daily_cost),
        ("daily_limit", Value.q dl),
        ("hourly_requests", Value.n hourly_requests),
        ("hourly_limit", Value.n hl)], db1)
    | _, _, _ => (check_error_dict, db1)

/-- `update_user_limits` (`usage_tracker.py` lines 252-290): reads the
current limits (provisioning defaults if absent), overwrites only the
supplied fields, keeps the stored `created_at` (or `now` when no row
exists), sets `updated_at = now`, upserts, and returns `True`; any
failing store access in its own `try` lands in the `except` branch
returning `False`.  The signature has no `is_premium` parameter, exactly
as in the source. -/
def update_user_limits (st : StoreStatus) (s : Settings) (db : DB) (now : ℤ)
    (user_id : String) (monthly_limit daily_limit : Option ℚ)
    (requests_per_hour : Option ℕ) : Bool × DB :=
  match get_user_limits st s db now user_id with
  | (cur, db1) =>
    match dgetQ cur "monthly_limit", dgetQ cur "daily_limit",
          dgetN cur "requests_per_hour" with
    | some m0, some d0, some h0 =>
      let m := monthly_limit.getD m0
      let d := daily_limit.getD d0
      let h := requests_per_hour.getD h0
      if st.limitsReadOk && st.limitsWriteOk then
        let created_at := match findRow db1.user_limits user_id with
          | some r => r.created_at
          | none => now
        let row : UserLimitsRow := ⟨user_id, m, d, h, created_at, now⟩
        (true, { db1 with user_limits := insertOrReplace db1.user_limits row })
      else
        (false, db1)
    | _, _, _ => (false, db1)

/-- A Python exception relevant to the consumers of the tracker. -/
inductive PyErr where
  | keyError : String → PyErr
deriving DecidableEq

/-- `d[k]` as a fallible access: a missing key raises `KeyError`. -/
def dgetQE (d : Dict) (k : String) : Except PyErr ℚ :=
  match dgetQ d k with
  | some x => Except.ok x
  | none => Except.error (PyErr.keyError k)

/-- `d[k]` as a fallible access for an int-valued key. -/
def dgetNE (d : Dict) (k : String) : Except PyErr ℕ :=
  match dgetN d k with
  | some x => Except.ok x
  | none => Except.error (PyErr.keyError k)

/-- `AIAnalysisService._create_limit_exceeded_message`
(`ai_analysis_service.py` lines 237-257): indexes the usage/limit keys
of the `check_user_limits` result in order; a missing key raises
`KeyError` to the caller.  The exact `:.2f` number formatting of the
f-strings is abstracted by `toString`. -/
def create_limit_exceeded_message (limits_check : Dict) : Except PyErr String := do
  let mu ← dgetQE limits_check "monthly_usage"
  let ml ← dgetQE limits_check "monthly_limit"
  if ml ≤ mu then
    pure ("Monthly Usage Limit Reached: used " ++ toString mu ++ " of " ++ toString ml)
  else
    let du ← dgetQE limits_check "daily_usage"
    let dl ← dgetQE limits_check "daily_limit"
    if dl ≤ du then
      pure ("Daily Usage Limit Reached: used " ++ toString du ++ " of " ++ toString dl)
    else
      let hr ← dgetNE limits_check "hourly_requests"
      let hl ← dgetNE limits_check "hourly_limit"
      if hl ≤ hr then
        pure ("Rate Limit Exceeded: " ++ toString hr ++ " requests, limit " ++ toString hl)
      else
        pure "Usage limit exceeded. Please try again later."


/-- The `user_limits` row written by `create_default_limits`:
process-wide defaults, `created_at = updated_at = now`. -/
def defaultRow (s : Settings) (now : ℤ) (uid : String) : UserLimitsRow :=
  ⟨uid, s.DEFAULT_MONTHLY_LIMIT, s.DEFAULT_DAILY_LIMIT,
   s.DEFAULT_HOURLY_REQUESTS, now, now⟩

/-! ### Claim-side characterisations and concrete inputs -/

/-- The sum of `estimated_cost` over the user's events in the trailing
window of `days` days — `monthly_usage`/`daily_usage` as the
specification words them. -/
def windowCost (db : DB) (uid : String) (now : ℤ) (days : ℕ) : ℚ :=
  ((db.usage_records.filter (inUsageWindow now days uid)).map
    (fun e => e.estimated_cost)).sum

/-- The user's events inside the trailing window that belong to one
service: the group a row of the `GROUP BY` result describes. -/
def serviceEvents (db : DB) (uid : String) (now : ℤ) (days : ℕ)
    (svc : String) : List UsageRecord :=
  (db.usage_records.filter (inUsageWindow now days uid)).filter
    (fun e => e.api_service == svc)

/-- The monthly limit `check_user_limits` evaluates against: the stored
row's value when a row exists, else the process-wide default. -/
def effMonthly (s : Settings) (db : DB) (uid : String) : ℚ :=
  match findRow db.user_limits uid with
  | some r => r.monthly_limit
  | none => s.DEFAULT_MONTHLY_LIMIT

/-- The daily limit `check_user_limits` evaluates against. -/
def effDaily (s : Settings) (db : DB) (uid : String) : ℚ :=
  match findRow db.user_limits uid with
  | some r => r.daily_limit
  | none => s.DEFAULT_DAILY_LIMIT

/-- The hourly request limit `check_user_limits` evaluates against. -/
def effHourly (s : Settings) (db : DB) (uid : String) : ℕ :=
  match findRow db.user_limits uid with
  | some r => r.requests_per_hour
  | none => s.DEFAULT_HOURLY_REQUESTS

/-- A `groq` analysis event of cost $0.50. -/
def ev (uid : String) (t : ℤ) : UsageRecord :=
  ⟨uid, t, "groq", 100, 1/2, "analysis", []⟩

/-- The spec scenario ledger: five events of cost $0.50 each, all within
one day of the query time `3000000`, and no configured limits row. -/
def scenarioDB : DB :=
  ⟨[ev "u" 2999990, ev "u" 2999991, ev "u" 2999992,
    ev "u" 2999993, ev "u" 2999994], []⟩

/-- A store where only the `usage_records` aggregation read of
`get_user_usage` fails. -/
def stUsageReadFail : StoreStatus := ⟨false, true, true, true, true⟩

/-- A store where only the `user_limits` read of `get_user_limits`
fails. -/
def stLimitsReadFail : StoreStatus := ⟨true, true, false, true, true⟩

/-- The store state after `update_user_limits(user=u7, monthly_limit=50)`
against an initially empty store — the closest expressible form of the
spec scenario `UpdateLimits(user, is_premium=true, monthly_limit=50.00)`
(the source function has no `is_premium` parameter to pass). -/
def c4state : DB :=
  (update_user_limits StoreStatus.allOk defaultSettings ⟨[], []⟩ 1000 "u7"
    (some 50) none none).2

/-! ### Helper lemmas -/

/-- Looking up a key in a list of pairs built by pairing each key of `d`
with `f` of it yields `f t` exactly when `t` occurs in `d`. -/
theorem lookup_map_pair {B : Type} (f : String → B) :
    ∀ (d : List String) (t : String),
      List.lookup t (d.map fun b => (b, f b)) =
        if t ∈ d then some (f t) else none := by
  intro d
  induction d with
  | nil => intro t; simp
  | cons b d ih =>
    intro t
    by_cases hbt : t = b
    · subst hbt; simp [List.lookup]
    · have hbeq : (t == b) = false := by simpa using hbt
      simp [List.lookup, hbeq, hbt, ih t]

/-- Splitting a mapped sum along a Boolean predicate. -/
theorem sum_map_filter_partition {A M : Type} [AddCommMonoid M]
    (p : A → Bool) (f : A → M) :
    ∀ l : List A,
      ((l.filter p).map f).sum + ((l.filter fun a => !(p a)).map f).sum
        = (l.map f).sum := by
  intro l
  induction l with
  | nil => simp
  | cons a t ih =>
    cases hp : p a <;>
      simp [List.filter_cons, hp, ← ih, add_assoc, add_left_comm, add_comm]

/-- Summing group sums over a duplicate-free list of group labels that
covers a list recovers the total sum over the list. -/
theorem group_sum {A M : Type} [AddCommMonoid M] (g : A → String) (f : A → M) :
    ∀ (d : List String) (l : List A), d.Nodup → (∀ a ∈ l, g a ∈ d) →
      (d.map fun b => ((l.filter fun a => g a == b).map f).sum).sum
        = (l.map f).sum := by
  intro d
  induction d with
  | nil =>
    intro l _ hcov
    have hl : l = [] := by
      apply List.eq_nil_iff_forall_not_mem.mpr
      intro a ha
      simpa using hcov a ha
    subst hl; simp
  | cons b d ih =>
    intro l hnd hcov
    have hb : b ∉ d := (List.nodup_cons.mp hnd).1
    have hnd' : d.Nodup := (List.nodup_cons.mp hnd).2
    have hcov2 : ∀ a ∈ l.filter (fun a => !(g a == b)), g a ∈ d := by
      intro a ha
      have hmem := List.mem_filter.mp ha
      have hgb : g a ≠ b := by simpa using hmem.2
      rcases List.mem_cons.mp (hcov a hmem.1) with h | h
      · exact absurd h hgb
      · exact h
    have hsw : ∀ b' ∈ d, (l.filter fun a => g a == b')
        = (l.filter (fun a => !(g a == b))).filter (fun a => g a == b') := by
      intro b' hb'
      rw [List.filter_filter]
      apply List.filter_congr
      intro a _
      by_cases h : g a = b'
      · have hne : b' ≠ b := fun he => hb (he ▸ hb')
        simp [h, hne]
      · simp [h]
    have hmap : (d.map fun b' => ((l.filter fun a => g a == b').map f).sum)
        = d.map fun b' =>
            (((l.filter (fun a => !(g a == b))).filter
              (fun a => g a == b')).map f).sum := by
      apply List.map_congr_left
      intro b' hb'
      rw [hsw b' hb']
    rw [List.map_cons, List.sum_cons, hmap,
      ih (l.filter (fun a => !(g a == b))) hnd' hcov2]
    exact sum_map_filter_partition (fun a => g a == b) f l

/-- A label occurs among the images of a list iff filtering the list by
that label is non-empty. -/
theorem mem_map_iff_filter_ne_nil {A : Type} (g : A → String) (l : List A)
    (t : String) :
    t ∈ l.map g ↔ l.filter (fun a => g a == t) ≠ [] := by
  constructor
  · intro h
    obtain ⟨a, ha, hga⟩ := List.mem_map.mp h
    intro hnil
    have := List.filter_eq_nil_iff.mp hnil a ha
    simp [hga] at this
  · intro h
    obtain ⟨a, ha⟩ := List.exists_mem_of_ne_nil _ h
    have hmem := List.mem_filter.mp ha
    have hga : g a = t := by simpa using hmem.2
    exact List.mem_map.mpr ⟨a, hmem.1, hga⟩

/-- `find?` over a list whose elements all fail the predicate, followed
by a singleton. -/
theorem find_append_singleton {A : Type} (p : A → Bool) (r : A) :
    ∀ l : List A, (∀ x ∈ l, p x = false) →
      (l ++ [r]).find? p = if p r then some r else none := by
  intro l
  induction l with
  | nil => intro _; cases hp : p r <;> simp [List.find?, hp]
  | cons x t ih =>
    intro h
    have hx := h x (List.mem_cons_self x t)
    simp only [List.cons_append, List.find?, hx]
    exact ih (fun y hy => h y (List.mem_cons_of_mem x hy))

/-- After an upsert, the primary-key lookup of the upserted id returns
the new row. -/
theorem findRow_insertOrReplace_self (rows : List UserLimitsRow)
    (r : UserLimitsRow) :
    findRow (insertOrReplace rows r) r.user_id = some r := by
  unfold findRow insertOrReplace
  rw [find_append_singleton]
  · simp
  · intro x hx
    have := (List.mem_filter.mp hx).2
    simpa using this

/-- After an upsert, the primary-key lookup of any other id is
unchanged. -/
theorem findRow_insertOrReplace_other (rows : List UserLimitsRow)
    (r : UserLimitsRow) (v : String) (hv : v ≠ r.user_id) :
    findRow (insertOrReplace rows r) v = findRow rows v := by
  unfold findRow insertOrReplace
  induction rows with
  | nil =>
    have hrv : (r.user_id == v) = false := by
      simp only [beq_eq_false_iff_ne]
      exact fun h => hv h.symm
    simp [List.find?, hrv]
  | cons x t ih =>
    by_cases hx : x.user_id = r.user_id
    · have hxr : (x.user_id == r.user_id) = true := by simpa using hx
      have hxv : (x.user_id == v) = false := by
        simp only [beq_eq_false_iff_ne]
        exact fun h => hv (h.symm.trans hx)
      simp [List.filter_cons, hxr, List.find?, hxv, ih]
    · have hxr : (x.user_id == r.user_id) = false := by simpa using hx
      cases hxv : x.user_id == v <;>
        simp [List.filter_cons, hxr, List.find?, hxv, ih]

/-- The three keys of every dict produced by `get_user_limits` and
`create_default_limits`. -/
theorem dget_limitsDict (m d : ℚ) (h : ℕ) :
    dgetQ (limitsDict m d h) "monthly_limit" = some m ∧
    dgetQ (limitsDict m d h) "daily_limit" = some d ∧
    dgetN (limitsDict m d h) "requests_per_hour" = some h := by
  refine ⟨?_, ?_, ?_⟩ <;> rfl

/-- Every path of `get_user_limits` returns a three-key limits dict and
leaves `usage_records` untouched. -/
theorem get_user_limits_shape (st : StoreStatus) (s : Settings) (db : DB)
    (now : ℤ) (uid : String) :
    ∃ m d h db1, get_user_limits st s db now uid = (limitsDict m d h, db1) ∧
      db1.usage_records = db.usage_records := by
  cases hr : st.limitsReadOk
  · cases hw : st.limitsWriteOk
    · exact ⟨10, 2, 20, db,
        by simp [get_user_limits, create_default_limits, hr, hw], rfl⟩
    · exact ⟨s.DEFAULT_MONTHLY_LIMIT, s.DEFAULT_DAILY_LIMIT,
        s.DEFAULT_HOURLY_REQUESTS,
        ⟨db.usage_records, insertOrReplace db.user_limits (defaultRow s now uid)⟩,
        by simp [get_user_limits, create_default_limits, defaultRow, hr, hw], rfl⟩
  · cases hfind : findRow db.user_limits uid with
    | none =>
      cases hw : st.limitsWriteOk
      · exact ⟨10, 2, 20, db,
          by simp [get_user_limits, create_default_limits, hr, hw, hfind], rfl⟩
      · exact ⟨s.DEFAULT_MONTHLY_LIMIT, s.DEFAULT_DAILY_LIMIT,
          s.DEFAULT_HOURLY_REQUESTS,
          ⟨db.usage_records, insertOrReplace db.user_limits (defaultRow s now uid)⟩,
          by simp [get_user_limits, create_default_limits, defaultRow, hr, hw, hfind],
          rfl⟩
    | some r =>
      exact ⟨r.monthly_limit, r.daily_limit, r.requests_per_hour, db,
        by simp [get_user_limits, hr, hfind], rfl⟩


/-- `get_user_usage` only reads the `usage_records` table. -/
theorem get_user_usage_congr (ok : Bool) (db1 db2 : DB) (now : ℤ)
    (uid : String) (days : ℕ) (h : db1.usage_records = db2.usage_records) :
    get_user_usage ok db1 now uid days = get_user_usage ok db2 now uid days := by
  unfold get_user_usage
  rw [h]

/-- `get_hourly_request_count` only reads the `usage_records` table. -/
theorem get_hourly_request_count_congr (ok : Bool) (db1 db2 : DB) (now : ℤ)
    (uid : String) (h : db1.usage_records = db2.usage_records) :
    get_hourly_request_count ok db1 now uid
      = get_hourly_request_count ok db2 now uid := by
  unfold get_hourly_request_count
  rw [h]

/-- The total cost reported by the grouped aggregation equals the plain
sum of `estimated_cost` over the window: summing the per-service `cost`
fields recovers `windowCost`. -/
theorem sumCost_get_user_usage (db : DB) (now : ℤ) (uid : String) (days : ℕ) :
    sumCost (get_user_usage true db now uid days) = windowCost db uid now days := by
  unfold sumCost get_user_usage windowCost
  simp only [if_pos]
  rw [List.map_map]
  have := group_sum (fun e => e.api_service) (fun e => e.estimated_cost)
    ((db.usage_records.filter (inUsageWindow now days uid)).map
      (fun e => e.api_service)).dedup
    (db.usage_records.filter (inUsageWindow now days uid))
    (List.nodup_dedup _)
    (fun a ha => List.mem_dedup.mpr (List.mem_map_of_mem _ ha))
  exact this

/-- `check_user_limits` with every store access succeeding returns the
seven-key dict built from the windowed sums and the effective limits. -/
theorem check_user_limits_allOk (s : Settings) (db : DB) (now : ℤ)
    (uid : String) :
    (check_user_limits StoreStatus.allOk s db now uid).1 =
      [("within_limits", Value.b (decide (windowCost db uid now 30 ≤ effMonthly s db uid) &&
          decide (windowCost db uid now 1 ≤ effDaily s db uid) &&
          decide (get_hourly_request_count true db now uid ≤ effHourly s db uid))),
       ("monthly_usage", Value.q (windowCost db uid now 30)),
       ("monthly_limit", Value.q (effMonthly s db uid)),
       ("daily_usage", Value.q (windowCost db uid now 1)),
       ("daily_limit", Value.q (effDaily s db uid)),
       ("hourly_requests", Value.n (get_hourly_request_count true db now uid)),
       ("hourly_limit", Value.n (effHourly s db uid))] := by
  cases hfind : findRow db.user_limits uid with
  | some r =>
    have hgul : get_user_limits StoreStatus.allOk s db now uid
        = (limitsDict r.monthly_limit r.daily_limit r.requests_per_hour, db) := by
      simp [get_user_limits, StoreStatus.allOk, hfind]
    unfold check_user_limits
    rw [hgul]
    simp [dgetQ, dgetN, dget, limitsDict, List.lookup, StoreStatus.allOk,
      sumCost_get_user_usage, effMonthly, effDaily, effHourly, hfind]
  | none =>
    have hgul : get_user_limits StoreStatus.allOk s db now uid
        = (limitsDict s.DEFAULT_MONTHLY_LIMIT s.DEFAULT_DAILY_LIMIT
             s.DEFAULT_HOURLY_REQUESTS,
           ⟨db.usage_records, insertOrReplace db.user_limits (defaultRow s now uid)⟩) := by
      simp [get_user_limits, create_default_limits, defaultRow, StoreStatus.allOk, hfind]
    have h30 := get_user_usage_congr true
      ⟨db.usage_records, insertOrReplace db.user_limits (defaultRow s now uid)⟩
      db now uid 30 rfl
    have h1 := get_user_usage_congr true
      ⟨db.usage_records, insertOrReplace db.user_limits (defaultRow s now uid)⟩
      db now uid 1 rfl
    have hh := get_hourly_request_count_congr true
      ⟨db.usage_records, insertOrReplace db.user_limits (defaultRow s now uid)⟩
      db now uid rfl
    unfold check_user_limits
    rw [hgul]
    simp [dgetQ, dgetN, dget, limitsDict, List.lookup, StoreStatus.allOk,
      h30, h1, hh, sumCost_get_user_usage, effMonthly, effDaily, effHourly, hfind]

/-- `check_user_limits` hands back exactly the store state left by its
`get_user_limits` step. -/
theorem check_user_limits_db (st : StoreStatus) (s : Settings) (db : DB)
    (now : ℤ) (uid : String) :
    (check_user_limits st s db now uid).2 = (get_user_limits st s db now uid).2 := by
  obtain ⟨m, d, h, db1, heq, -⟩ := get_user_limits_shape st s db now uid
  unfold check_user_limits
  rw [heq]
  simp [dgetQ, dgetN, dget, limitsDict, List.lookup]


/-! ### Claim theorems -/

/-- C1: for every user and ledger state, `check_user_limits` (all store
accesses succeeding) reports `within_limits = true` iff the trailing
30-day cost is ≤ the monthly limit, the trailing 1-day cost is ≤ the
daily limit, and the hourly request count is ≤ the hourly limit; and in
the spec scenario (five $0.50 events within one day, default limits
10/2/20) it reports `daily_usage = 2.50`, `monthly_usage = 2.50` and
`within_limits = false`. -/
theorem claim_C1_within_limits_iff :
    (∀ (s : Settings) (db : DB) (now : ℤ) (uid : String),
      dget (check_user_limits StoreStatus.allOk s db now uid).1 "within_limits"
          = some (Value.b true)
        ↔ (windowCost db uid now 30 ≤ effMonthly s db uid ∧
           windowCost db uid now 1 ≤ effDaily s db uid ∧
           get_hourly_request_count true db now uid ≤ effHourly s db uid))
    ∧ dgetQ (check_user_limits StoreStatus.allOk defaultSettings scenarioDB
        3000000 "u").1 "daily_usage" = some (5/2)
    ∧ dgetQ (check_user_limits StoreStatus.allOk defaultSettings scenarioDB
        3000000 "u").1 "monthly_usage" = some (5/2)
    ∧ dget (check_user_limits StoreStatus.allOk defaultSettings scenarioDB
        3000000 "u").1 "within_limits" = some (Value.b false) := by
  have hd : windowCost scenarioDB "u" 3000000 1 = 5/2 := by
    norm_num [windowCost, scenarioDB, ev, inUsageWindow]
  have hm : windowCost scenarioDB "u" 3000000 30 = 5/2 := by
    norm_num [windowCost, scenarioDB, ev, inUsageWindow]
  have hh : get_hourly_request_count true scenarioDB 3000000 "u" = 5 := by
    norm_num [get_hourly_request_count, scenarioDB, ev]
  have heM : effMonthly defaultSettings scenarioDB "u" = 10 := rfl
  have heD : effDaily defaultSettings scenarioDB "u" = 2 := rfl
  have heH : effHourly defaultSettings scenarioDB "u" = 20 := rfl
  have hb1 : (decide ((5:ℚ)/2 ≤ 10)) = true := by norm_num
  have hb2 : (decide ((5:ℚ)/2 ≤ 2)) = false := by norm_num
  refine ⟨?_, ?_, ?_, ?_⟩
  · intro s db now uid
    rw [check_user_limits_allOk]
    simp [dget, List.lookup, and_assoc]
  · rw [check_user_limits_allOk]
    simp [dgetQ, dget, List.lookup, hd]
  · rw [check_user_limits_allOk]
    simp [dgetQ, dget, List.lookup, hm]
  · rw [check_user_limits_allOk]
    simp [dget, List.lookup, hd, hm, hh, heM, heD, heH, hb1, hb2]

/-- C2 (evidence of the divergence): on the spec scenario ledger — five
$0.50 events within one day, daily limit 2.00 — a failure of the
usage-aggregation read makes `check_user_limits` report
`within_limits = true` (the `except` branch of `get_user_usage` returns
`{}`, so all usage counts as zero), whereas the very same ledger with
all reads succeeding reports `within_limits = false`.  The check
therefore fails open on aggregation-read failures, contradicting the
claimed fail-closed behaviour. -/
theorem claim_C2_fail_open_on_usage_read_failure :
    dget (check_user_limits stUsageReadFail defaultSettings scenarioDB
        3000000 "u").1 "within_limits" = some (Value.b true)
    ∧ dget (check_user_limits StoreStatus.allOk defaultSettings scenarioDB
        3000000 "u").1 "within_limits" = some (Value.b false) := by
  constructor
  · have hgul : get_user_limits stUsageReadFail defaultSettings scenarioDB
        3000000 "u"
        = (limitsDict 10 2 20,
           ⟨scenarioDB.usage_records, [defaultRow defaultSettings 3000000 "u"]⟩) := rfl
    have hh : get_hourly_request_count true
        (⟨scenarioDB.usage_records, [defaultRow defaultSettings 3000000 "u"]⟩ : DB)
        3000000 "u" = 5 := by
      norm_num [get_hourly_request_count, scenarioDB, ev]
    have h01 : (decide ((0:ℚ) ≤ 10)) = true := by norm_num
    have h02 : (decide ((0:ℚ) ≤ 2)) = true := by norm_num
    unfold check_user_limits
    rw [hgul]
    simp [dgetQ, dget, dgetN, limitsDict, List.lookup, stUsageReadFail,
      sumCost, get_user_usage, hh, h01, h02]
  · have hd : windowCost scenarioDB "u" 3000000 1 = 5/2 := by
      norm_num [windowCost, scenarioDB, ev, inUsageWindow]
    have hm : windowCost scenarioDB "u" 3000000 30 = 5/2 := by
      norm_num [windowCost, scenarioDB, ev, inUsageWindow]
    have hh : get_hourly_request_count true scenarioDB 3000000 "u" = 5 := by
      norm_num [get_hourly_request_count, scenarioDB, ev]
    have heM : effMonthly defaultSettings scenarioDB "u" = 10 := rfl
    have heD : effDaily defaultSettings scenarioDB "u" = 2 := rfl
    have heH : effHourly defaultSettings scenarioDB "u" = 20 := rfl
    have hb1 : (decide ((5:ℚ)/2 ≤ 10)) = true := by norm_num
    have hb2 : (decide ((5:ℚ)/2 ≤ 2)) = false := by norm_num
    rw [check_user_limits_allOk]
    simp [dget, List.lookup, hd, hm, hh, heM, heD, heH, hb1, hb2]

/-- C3: `get_user_usage` returns, per service, exactly the sum of
`estimated_cost`, the sum of `tokens_used` and the count of the user's
events with `timestamp ≥ now - days·86400` (an event exactly at the
boundary is included, third conjunct); services with no event in the
window are absent, and an empty ledger yields the empty dict. -/
theorem claim_C3_get_user_usage_window_sums :
    (∀ (db : DB) (now : ℤ) (uid : String) (days : ℕ) (svc : String),
      List.lookup svc (get_user_usage true db now uid days) =
        (if (serviceEvents db uid now days svc).isEmpty then none
         else some ⟨((serviceEvents db uid now days svc).map (fun e => e.tokens_used)).sum,
                    ((serviceEvents db uid now days svc).map (fun e => e.estimated_cost)).sum,
                    (serviceEvents db uid now days svc).length⟩))
    ∧ (∀ (L : List UserLimitsRow) (now : ℤ) (uid : String) (days : ℕ),
        get_user_usage true ⟨[], L⟩ now uid days = [])
    ∧ (∀ (now : ℤ) (uid svc : String) (days tok : ℕ) (c : ℚ) (rt : String),
        get_user_usage true ⟨[⟨uid, now - (days : ℤ) * 86400, svc, tok, c, rt, []⟩], []⟩
            now uid days
          = [(svc, ⟨tok, c, 1⟩)]) := by
  refine ⟨?_, ?_, ?_⟩
  · intro db now uid days svc
    have hrfl : get_user_usage true db now uid days =
        ((db.usage_records.filter (inUsageWindow now days uid)).map
          (fun e => e.api_service)).dedup.map (fun s =>
            (s, ⟨(((db.usage_records.filter (inUsageWindow now days uid)).filter
                    (fun e => e.api_service == s)).map (fun e => e.tokens_used)).sum,
                 (((db.usage_records.filter (inUsageWindow now days uid)).filter
                    (fun e => e.api_service == s)).map (fun e => e.estimated_cost)).sum,
                 ((db.usage_records.filter (inUsageWindow now days uid)).filter
                    (fun e => e.api_service == s)).length⟩)) := rfl
    rw [hrfl, lookup_map_pair]
    by_cases hmem : svc ∈ ((db.usage_records.filter (inUsageWindow now days uid)).map
        (fun e => e.api_service)).dedup
    · rw [if_pos hmem]
      have hne : (db.usage_records.filter (inUsageWindow now days uid)).filter
          (fun e => e.api_service == svc) ≠ [] :=
        (mem_map_iff_filter_ne_nil _ _ _).mp (List.mem_dedup.mp hmem)
      have hemp : (serviceEvents db uid now days svc).isEmpty = false := by
        simpa [serviceEvents, List.isEmpty_iff] using hne
      rw [hemp]
      simp [serviceEvents]
    · rw [if_neg hmem]
      have hnil : (db.usage_records.filter (inUsageWindow now days uid)).filter
          (fun e => e.api_service == svc) = [] := by
        by_contra hne
        exact hmem (List.mem_dedup.mpr ((mem_map_iff_filter_ne_nil _ _ _).mpr hne))
      have hemp : (serviceEvents db uid now days svc).isEmpty = true := by
        simp [serviceEvents, List.isEmpty_iff, hnil]
      rw [hemp]
      simp
  · intro L now uid days
    rfl
  · intro now uid svc days tok c rt
    simp [get_user_usage, inUsageWindow]

/-- C7: `record_usage` with a reachable store appends exactly one event
carrying the supplied fields with `timestamp = now` (all previously
recorded events are preserved in place) and returns `True`; with an
unreachable store it returns `False` (no exception escapes to the
caller) and the ledger is unchanged. -/
theorem claim_C7_record_usage_append_or_fail :
    ∀ (db : DB) (now : ℤ) (uid svc : String) (tok : ℕ) (c : ℚ) (rt : String)
      (md : Option (List (String × String))),
      record_usage true db now uid svc tok c rt md
          = (true, ⟨db.usage_records ++ [⟨uid, now, svc, tok, c, rt, md.getD []⟩],
                    db.user_limits⟩)
        ∧ record_usage false db now uid svc tok c rt md = (false, db) := by
  intro db now uid svc tok c rt md
  exact ⟨rfl, rfl⟩

/-- C4 (evidence of the divergence): the `user_limits` schema and
`update_user_limits` have no `is_premium` field or parameter — calling
`update_user_limits(user, is_premium=True, monthly_limit=50.00)` as the
spec scenario does raises `TypeError` in Python.  For the closest
expressible call, `update_user_limits(user, monthly_limit=50.00)`, a
subsequent `get_user_limits` returns `monthly_limit = 50.00` with the
other stored fields preserved, but its dict has no `"is_premium"` key
at all. -/
theorem claim_C4_no_is_premium :
    dgetQ (get_user_limits StoreStatus.allOk defaultSettings c4state
        2000 "u7").1 "monthly_limit" = some 50
    ∧ dget (get_user_limits StoreStatus.allOk defaultSettings c4state
        2000 "u7").1 "is_premium" = none
    ∧ dgetQ (get_user_limits StoreStatus.allOk defaultSettings c4state
        2000 "u7").1 "daily_limit" = some 2
    ∧ dgetN (get_user_limits StoreStatus.allOk defaultSettings c4state
        2000 "u7").1 "requests_per_hour" = some 20 := by
  refine ⟨rfl, rfl, rfl, rfl⟩

/-- C5: `update_user_limits` called with only `daily_limit` supplied
changes exactly `daily_limit` and `updated_at`: `monthly_limit` and
`requests_per_hour` keep their stored values, `created_at` is preserved
from the existing row (second part: set to `now` when no row existed,
via the provisioned default row), other users' rows are untouched, and
the usage ledger is untouched.  The row has no further fields — in
particular no `is_premium` — so the whole-row equality is the full
frame property. -/
theorem claim_C5_partial_update_frame :
    ∀ (s : Settings) (db : DB) (now : ℤ) (uid : String) (dnew : ℚ),
      (∀ r, findRow db.user_limits uid = some r →
        update_user_limits StoreStatus.allOk s db now uid none (some dnew) none
            = (true, ⟨db.usage_records, insertOrReplace db.user_limits
                ⟨uid, r.monthly_limit, dnew, r.requests_per_hour, r.created_at, now⟩⟩)
          ∧ findRow (insertOrReplace db.user_limits
                ⟨uid, r.monthly_limit, dnew, r.requests_per_hour, r.created_at, now⟩) uid
              = some ⟨uid, r.monthly_limit, dnew, r.requests_per_hour, r.created_at, now⟩
          ∧ ∀ v, v ≠ uid → findRow (insertOrReplace db.user_limits
                ⟨uid, r.monthly_limit, dnew, r.requests_per_hour, r.created_at, now⟩) v
              = findRow db.user_limits v)
      ∧ (findRow db.user_limits uid = none →
          update_user_limits StoreStatus.allOk s db now uid none (some dnew) none
            = (true, ⟨db.usage_records,
                insertOrReplace (insertOrReplace db.user_limits (defaultRow s now uid))
                  ⟨uid, s.DEFAULT_MONTHLY_LIMIT, dnew, s.DEFAULT_HOURLY_REQUESTS, now, now⟩⟩)) := by
  intro s db now uid dnew
  constructor
  · intro r hfind
    have hgul : get_user_limits StoreStatus.allOk s db now uid
        = (limitsDict r.monthly_limit r.daily_limit r.requests_per_hour, db) := by
      simp [get_user_limits, StoreStatus.allOk, hfind]
    refine ⟨?_, ?_, ?_⟩
    · unfold update_user_limits
      rw [hgul]
      simp [dgetQ, dgetN, dget, limitsDict, List.lookup, StoreStatus.allOk, hfind]
    · exact findRow_insertOrReplace_self db.user_limits
        ⟨uid, r.monthly_limit, dnew, r.requests_per_hour, r.created_at, now⟩
    · intro v hv
      exact findRow_insertOrReplace_other db.user_limits
        ⟨uid, r.monthly_limit, dnew, r.requests_per_hour, r.created_at, now⟩ v hv
  · intro hfind
    have hgul : get_user_limits StoreStatus.allOk s db now uid
        = (limitsDict s.DEFAULT_MONTHLY_LIMIT s.DEFAULT_DAILY_LIMIT
             s.DEFAULT_HOURLY_REQUESTS,
           ⟨db.usage_records, insertOrReplace db.user_limits (defaultRow s now uid)⟩) := by
      simp [get_user_limits, create_default_limits, defaultRow, StoreStatus.allOk, hfind]
    have hfr : findRow (insertOrReplace db.user_limits (defaultRow s now uid)) uid
        = some (defaultRow s now uid) :=
      findRow_insertOrReplace_self db.user_limits (defaultRow s now uid)
    unfold update_user_limits
    rw [hgul]
    simp [dgetQ, dgetN, dget, limitsDict, List.lookup, StoreStatus.allOk, hfr]
    simp [defaultRow]

/-- Witness for C5: a concrete store with an existing row for user `w`
(monthly 7, daily 1, hourly 9, created 100) updated with daily 3/2. -/
theorem claim_C5_witness :
    update_user_limits StoreStatus.allOk defaultSettings
        ⟨[], [⟨"w", 7, 1, 9, 100, 200⟩]⟩ 300 "w" none (some (3/2)) none
      = (true, ⟨[], insertOrReplace [⟨"w", 7, 1, 9, 100, 200⟩]
          ⟨"w", 7, 3/2, 9, 100, 300⟩⟩) :=
  ((claim_C5_partial_update_frame defaultSettings ⟨[], [⟨"w", 7, 1, 9, 100, 200⟩]⟩
    300 "w" (3/2)).1 ⟨"w", 7, 1, 9, 100, 200⟩ rfl).1

/-- C6: for a user with no limits row, `get_user_limits` provisions the
row from the process-wide defaults via an upsert and returns them, and
an immediately following call returns the same dict and leaves the
store unchanged (idempotent provisioning). -/
theorem claim_C6_idempotent_provisioning :
    ∀ (s : Settings) (db : DB) (now now2 : ℤ) (uid : String),
      findRow db.user_limits uid = none →
      (get_user_limits StoreStatus.allOk s db now uid).1
          = limitsDict s.DEFAULT_MONTHLY_LIMIT s.DEFAULT_DAILY_LIMIT
              s.DEFAULT_HOURLY_REQUESTS
      ∧ (get_user_limits StoreStatus.allOk s
            (get_user_limits StoreStatus.allOk s db now uid).2 now2 uid).1
          = (get_user_limits StoreStatus.allOk s db now uid).1
      ∧ findRow (get_user_limits StoreStatus.allOk s db now uid).2.user_limits uid
          = some (defaultRow s now uid)
      ∧ (get_user_limits StoreStatus.allOk s
            (get_user_limits StoreStatus.allOk s db now uid).2 now2 uid).2
          = (get_user_limits StoreStatus.allOk s db now uid).2 := by
  intro s db now now2 uid hfind
  have hgul1 : get_user_limits StoreStatus.allOk s db now uid
      = (limitsDict s.DEFAULT_MONTHLY_LIMIT s.DEFAULT_DAILY_LIMIT
           s.DEFAULT_HOURLY_REQUESTS,
         ⟨db.usage_records, insertOrReplace db.user_limits (defaultRow s now uid)⟩) := by
    simp [get_user_limits, create_default_limits, defaultRow, StoreStatus.allOk, hfind]
  have hfr : findRow (insertOrReplace db.user_limits (defaultRow s now uid)) uid
      = some (defaultRow s now uid) :=
    findRow_insertOrReplace_self db.user_limits (defaultRow s now uid)
  have hgul2 : get_user_limits StoreStatus.allOk s
      (⟨db.usage_records, insertOrReplace db.user_limits (defaultRow s now uid)⟩ : DB)
      now2 uid
      = (limitsDict s.DEFAULT_MONTHLY_LIMIT s.DEFAULT_DAILY_LIMIT
           s.DEFAULT_HOURLY_REQUESTS,
         ⟨db.usage_records, insertOrReplace db.user_limits (defaultRow s now uid)⟩) := by
    simp [get_user_limits, StoreStatus.allOk, hfr]
    simp [defaultRow]
  refine ⟨?_, ?_, ?_, ?_⟩ <;> simp [hgul1, hgul2, hfr]

/-- Witness for C6: a brand-new user on an empty store. -/
theorem claim_C6_witness :
    (get_user_limits StoreStatus.allOk defaultSettings ⟨[], []⟩ 11 "nu").1
      = limitsDict defaultSettings.DEFAULT_MONTHLY_LIMIT
          defaultSettings.DEFAULT_DAILY_LIMIT
          defaultSettings.DEFAULT_HOURLY_REQUESTS :=
  (claim_C6_idempotent_provisioning defaultSettings ⟨[], []⟩ 11 12 "nu" rfl).1

/-- C8 (counterexample): no identifier validation exists —
`record_usage` called with the empty user id on an empty store records
the event and reports success, contradicting the claim that such a call
is rejected with no event recorded. -/
theorem claim_C8_counterexample_empty_user_recorded :
    record_usage true ⟨[], []⟩ 5 "" "groq" 10 (1/2) "analysis" none
      = (true, ⟨[⟨"", 5, "groq", 10, 1/2, "analysis", []⟩], []⟩) := rfl

/-- C8 (amended): the code never validates user identifiers; the empty
string is treated like any other id — `record_usage` appends an event
for it, and `check_user_limits` provisions a default limits row for it
rather than rejecting the call. -/
theorem claim_C8_no_user_validation :
    (∀ (db : DB) (now : ℤ) (svc : String) (tok : ℕ) (c : ℚ) (rt : String)
       (md : Option (List (String × String))),
      record_usage true db now "" svc tok c rt md
        = (true, ⟨db.usage_records ++ [⟨"", now, svc, tok, c, rt, md.getD []⟩],
                  db.user_limits⟩))
    ∧ (∀ (s : Settings) (now : ℤ),
        findRow (check_user_limits StoreStatus.allOk s ⟨[], []⟩ now "").2.user_limits ""
          = some (defaultRow s now "")) := by
  constructor
  · intro db now svc tok c rt md
    rfl
  · intro s now
    rw [check_user_limits_db]
    have hgul : get_user_limits StoreStatus.allOk s ⟨[], []⟩ now ""
        = (limitsDict s.DEFAULT_MONTHLY_LIMIT s.DEFAULT_DAILY_LIMIT
             s.DEFAULT_HOURLY_REQUESTS,
           ⟨[], insertOrReplace [] (defaultRow s now "")⟩) := by
      simp [get_user_limits, create_default_limits, defaultRow, StoreStatus.allOk,
        findRow]
    rw [hgul]
    exact findRow_insertOrReplace_self [] (defaultRow s now "")

/-- C9: the `except` path of `check_user_limits` returns a dict holding
only the key `within_limits` (value `False`) and none of the six
usage/limit keys; every non-exceptional call returns all seven keys; and
the limit-exceeded message builder fails with `KeyError` on the
error-path dict, since it indexes `monthly_usage` first. -/
theorem claim_C9_error_path_shape :
    (dget check_error_dict "within_limits" = some (Value.b false)
      ∧ dget check_error_dict "monthly_usage" = none
      ∧ dget check_error_dict "monthly_limit" = none
      ∧ dget check_error_dict "daily_usage" = none
      ∧ dget check_error_dict "daily_limit" = none
      ∧ dget check_error_dict "hourly_requests" = none
      ∧ dget check_error_dict "hourly_limit" = none)
    ∧ (∀ (st : StoreStatus) (s : Settings) (db : DB) (now : ℤ) (uid : String),
        (check_user_limits st s db now uid).1.map (fun p => p.1)
          = ["within_limits", "monthly_usage", "monthly_limit", "daily_usage",
             "daily_limit", "hourly_requests", "hourly_limit"])
    ∧ create_limit_exceeded_message check_error_dict
        = Except.error (PyErr.keyError "monthly_usage") := by
  refine ⟨⟨rfl, rfl, rfl, rfl, rfl, rfl, rfl⟩, ?_, rfl⟩
  intro st s db now uid
  obtain ⟨m, d, h, db1, heq, -⟩ := get_user_limits_shape st s db now uid
  unfold check_user_limits
  rw [heq]
  simp [dgetQ, dgetN, dget, limitsDict, List.lookup]

/-- C10: `create_default_limits` unconditionally upserts the default row
with `created_at = updated_at = now`, replacing whatever row existed;
`get_user_limits` reaches it whenever the limits read fails; hence one
failed read for a user with custom (admin-set) limits resets that user's
stored row to the process-wide defaults (concrete instance: a custom row
with monthly limit 50 is replaced by the default row). -/
theorem claim_C10_read_failure_resets_custom_limits :
    (∀ (s : Settings) (db : DB) (now : ℤ) (uid : String),
      create_default_limits true s db now uid
          = (limitsDict s.DEFAULT_MONTHLY_LIMIT s.DEFAULT_DAILY_LIMIT
               s.DEFAULT_HOURLY_REQUESTS,
             ⟨db.usage_records, insertOrReplace db.user_limits (defaultRow s now uid)⟩)
        ∧ findRow (insertOrReplace db.user_limits (defaultRow s now uid)) uid
            = some (defaultRow s now uid)
        ∧ get_user_limits stLimitsReadFail s db now uid
            = create_default_limits true s db now uid)
    ∧ findRow (get_user_limits stLimitsReadFail defaultSettings
        (⟨[], [⟨"vip", 50, 9, 99, 7, 8⟩]⟩ : DB) 100 "vip").2.user_limits "vip"
        = some ⟨"vip", 10, 2, 20, 100, 100⟩ := by
  constructor
  · intro s db now uid
    exact ⟨rfl, findRow_insertOrReplace_self db.user_limits (defaultRow s now uid),
      by simp [get_user_limits, stLimitsReadFail]⟩
  · rfl

end UsageLedger

